import Mathlib

/-!
Verification of the monitoring/scheduling core of the betamarzhelp repository
(`src/scheduler.py`), shallowly embedded in Lean 4.

The embedding models the `MonitoringScheduler` methods as pure functions over
an explicit environment `Env` that supplies the results of every external call
(Quota Record Store, Panel Client, Backup Service).  Side effects are recorded
as an ordered list of `Effect`s.  Python exceptions raised by collaborators are
modelled as `Except`-valued environment fields; a Python `try/except` becomes a
`match` on those values.  Percentages are modelled over `ℚ`.
-/

namespace Betamarz

/-- An admin account row as read from the store.  Mirrors the fields of the
store's admin model that `scheduler.py` reads: `user_id`, `id`, `username`,
`marzban_username`, `is_active`, `created_at` (a timestamp, modelled as a
rational number of seconds), and the three quota ceilings. -/
structure AdminAccount where
  user_id : Int
  id : Int
  username : Option String
  marzban_username : Option String
  is_active : Bool
  created_at : ℚ
  max_users : Int
  max_total_time : Int
  max_total_traffic : Int
deriving DecidableEq, Repr

/-- Live statistics returned by the Panel Client's `get_admin_stats`. -/
structure AdminStats where
  total_users : Int
  total_traffic_used : Int
deriving DecidableEq, Repr

/-- A remote panel user as returned by the Panel Client's `get_users`. -/
structure RemoteUser where
  username : String
  is_expired : Bool
deriving DecidableEq, Repr

/-- Modelled from the spec: `models.schemas.UsageReportModel` is imported by
`scheduler.py` but the `models` package is not under `src/`; per the spec a
UsageReport carries the owning admin identity, a timestamp, the observed
counters and an opaque per-user blob. -/
structure UsageReportModel where
  admin_user_id : Int
  check_time : ℚ
  current_users : Int
  current_total_time : Int
  current_total_traffic : Int
  users_data : String
deriving DecidableEq, Repr

/-- Modelled from the spec: `models.schemas.LogModel` is not under `src/`;
per the spec a log entry is `(admin_user_id : int or null, action, details,
timestamp)`. -/
structure LogModel where
  admin_user_id : Option Int
  action : String
  details : String
  timestamp : ℚ
deriving DecidableEq, Repr

/-- The `limits_data` mapping built on the success path of
`check_admin_limits_by_id` (scheduler.py lines 72-82), with one field per
dictionary key. -/
structure LimitsData where
  user_percentage : ℚ
  traffic_percentage : ℚ
  time_percentage : ℚ
  current_users : Int
  max_users : Int
  current_traffic : Int
  max_traffic : Int
  current_time : ℚ
  max_time : Int
deriving DecidableEq, Repr

/-- Modelled from the spec: `models.schemas.LimitCheckResult` is not under
`src/`; per the spec it carries the admin identity in both forms, the
`exceeded` and `warning` booleans and the `limits_data` mapping, and a result
constructed with only `admin_user_id` (the neutral result) has
`exceeded = false` and `warning = false`. -/
structure LimitCheckResult where
  admin_user_id : Int
  admin_id : Option Int := none
  exceeded : Bool := false
  warning : Bool := false
  limits_data : Option LimitsData := none
deriving DecidableEq, Repr

/-- Trigger of a scheduled job: fixed interval in seconds, or a cron-style
expression. -/
inductive Trigger where
  | interval (seconds : Int)
  | cron (expression : String)
deriving DecidableEq, Repr

/-- Observable side effects of the scheduler core, in program order.
`panelStats`/`panelGetUsers`/`removeUser` are Panel Client calls,
`reportAppend`/`addLog` are store writes, the `notify` constructors are
outbound messages, and the job/timer constructors are orchestrator actions. -/
inductive Effect where
  | panelStats (username : String)
  | reportAppend (report : UsageReportModel)
  | panelGetUsers (username : String)
  | removeUser (username : String)
  | addLog (entry : LogModel)
  | notifyExceeded (chat_id : Int)
  | notifyWarning (chat_id : Int) (percent : Int)
  | notifyBackupSuccess (chat : String) (filename : String)
  | jobRegistered (job_id : String) (trigger : Trigger)
  | timerStarted
  | timerShutdown
deriving DecidableEq, Repr

/-- A Python exception escaping a modelled function: `raised` for an ordinary
exception, `unboundLocal` for an `UnboundLocalError` (reading a local variable
that was never assigned). -/
inductive PyError where
  | raised
  | unboundLocal
deriving DecidableEq, Repr

/-- The environment: results of every external call the scheduler core makes.
An `Except Unit` value models a collaborator call that may raise. -/
structure Env where
  now : ℚ
  get_admin_by_id : Int → Except Unit (Option AdminAccount)
  get_all_admins : List AdminAccount
  get_admin_stats : String → Except Unit AdminStats
  get_users : String → Except Unit (List RemoteUser)
  remove_user : String → Except Unit Bool
  add_usage_report : UsageReportModel → Except Unit Unit
  add_log : LogModel → Except Unit Unit
  create_backup : Bool → Except Unit (Bool × String)

/-- Python `a or b` on an optional string: `None` and `""` are falsy. -/
def pyStrOr (a : Option String) (b : String) : String :=
  match a with
  | some s => if s = "" then b else s
  | none => b

/-- scheduler.py line 34: `admin.marzban_username or admin.username or
str(admin.user_id)`. -/
def adminUsername (a : AdminAccount) : String :=
  pyStrOr a.marzban_username (pyStrOr a.username (toString a.user_id))

/-- Python `int()` applied to a rational: truncation toward zero. -/
def pyInt (q : ℚ) : Int :=
  if q < 0 then -(Int.floor (-q)) else Int.floor q

/-- scheduler.py line 41: `elapsed_seconds / admin.max_total_time if
admin.max_total_time > 0 else 0`. -/
def timePercentage (a : AdminAccount) (elapsed : ℚ) : ℚ :=
  if 0 < a.max_total_time then elapsed / (a.max_total_time : ℚ) else 0

/-- scheduler.py line 42: users ratio, `0` when the ceiling is not positive. -/
def userPercentage (a : AdminAccount) (st : AdminStats) : ℚ :=
  if 0 < a.max_users then (st.total_users : ℚ) / (a.max_users : ℚ) else 0

/-- scheduler.py line 43: traffic ratio, `0` when the ceiling is not
positive. -/
def trafficPercentage (a : AdminAccount) (st : AdminStats) : ℚ :=
  if 0 < a.max_total_traffic then
    (st.total_traffic_used : ℚ) / (a.max_total_traffic : ℚ)
  else 0

/-- scheduler.py lines 45-49: `limits_exceeded`. -/
def limitsExceeded (tp up trp : ℚ) : Bool :=
  decide (1 ≤ tp) || decide (1 ≤ up) || decide (1 ≤ trp)

/-- scheduler.py line 50: `warning_levels = [0.6, 0.7, 0.8, 0.9]`. -/
def warningLevels : List ℚ := [6/10, 7/10, 8/10, 9/10]

/-- scheduler.py lines 52-54: `any(level <= p < 1.0 for level in
warning_levels)` for one dimension. -/
def crossesWarning (p : ℚ) : Bool :=
  warningLevels.any (fun level => decide (level ≤ p) && decide (p < 1))

/-- scheduler.py lines 51-55: `warning_needed`. -/
def warningNeeded (tp up trp : ℚ) : Bool :=
  crossesWarning tp || crossesWarning up || crossesWarning trp

/-- The neutral result `LimitCheckResult(admin_user_id=uid)`: all other
fields default. -/
def neutralResult (uid : Int) : LimitCheckResult :=
  { admin_user_id := uid }

/-- scheduler.py lines 57-64: the `UsageReportModel` built on the success
path (`int()` truncates the elapsed seconds and the traffic counter). -/
def successReport (a : AdminAccount) (st : AdminStats) (now : ℚ) : UsageReportModel :=
  { admin_user_id := a.user_id
    check_time := now
    current_users := st.total_users
    current_total_time := pyInt (now - a.created_at)
    current_total_traffic := st.total_traffic_used
    users_data := "[]" }

/-- scheduler.py lines 72-82: the `limits_data` dictionary built on the
success path.  `current_traffic` is the literal `0` of line 78. -/
def successLimitsData (a : AdminAccount) (st : AdminStats) (now : ℚ) : LimitsData :=
  { user_percentage := userPercentage a st
    traffic_percentage := trafficPercentage a st
    time_percentage := timePercentage a (now - a.created_at)
    current_users := st.total_users
    max_users := a.max_users
    current_traffic := 0
    max_traffic := a.max_total_traffic
    current_time := now - a.created_at
    max_time := a.max_total_time }

/-- scheduler.py lines 67-83: the `LimitCheckResult` returned on the success
path. -/
def successResult (a : AdminAccount) (st : AdminStats) (now : ℚ) : LimitCheckResult :=
  { admin_user_id := a.user_id
    admin_id := some a.id
    exceeded := limitsExceeded (timePercentage a (now - a.created_at))
      (userPercentage a st) (trafficPercentage a st)
    warning := warningNeeded (timePercentage a (now - a.created_at))
      (userPercentage a st) (trafficPercentage a st)
    limits_data := some (successLimitsData a st now) }

/-- scheduler.py lines 28-86, `check_admin_limits_by_id`.  Returns the
Python-level outcome (a value, or an escaping exception) together with the
ordered external effects.  When `get_admin_by_id` itself raises, the
`except`-handler at line 86 reads the local `admin`, which was never assigned:
the handler raises `UnboundLocalError`, which escapes. -/
def check_admin_limits_by_id (env : Env) (admin_id : Int) :
    Except PyError LimitCheckResult × List Effect :=
  match env.get_admin_by_id admin_id with
  | .error _ => (.error .unboundLocal, [])
  | .ok none => (.ok (neutralResult 0), [])
  | .ok (some admin) =>
    if admin.is_active = false then (.ok (neutralResult admin.user_id), [])
    else
      let uname := adminUsername admin
      match env.get_admin_stats uname with
      | .error _ => (.ok (neutralResult admin.user_id), [.panelStats uname])
      | .ok stats =>
        let report := successReport admin stats env.now
        let effs : List Effect := [.panelStats uname, .reportAppend report]
        match env.add_usage_report report with
        | .error _ => (.ok (neutralResult admin.user_id), effs)
        | .ok _ => (.ok (successResult admin stats env.now), effs)

/-- scheduler.py lines 178-188, `handle_limit_warning`: re-fetch the admin by
`result.admin_id`, bail out (with the exception swallowed) if the id is null,
the lookup raises, the admin is missing or `limits_data` is absent, otherwise
send one warning message carrying the truncated maximal percentage. -/
def handle_limit_warning (env : Env) (result : LimitCheckResult) : List Effect :=
  match result.admin_id with
  | none => []
  | some aid =>
    match env.get_admin_by_id aid with
    | .error _ => []
    | .ok none => []
    | .ok (some admin) =>
      match result.limits_data with
      | none => []
      | some ld =>
        [.notifyWarning admin.user_id
          (pyInt (max (max ld.user_percentage ld.traffic_percentage)
            ld.time_percentage * 100))]

/-- scheduler.py lines 190-197, `handle_limit_exceeded`: re-fetch the admin by
`result.admin_id`, bail out silently on null id, lookup failure or missing
admin, otherwise send one exceeded message. -/
def handle_limit_exceeded (env : Env) (result : LimitCheckResult) : List Effect :=
  match result.admin_id with
  | none => []
  | some aid =>
    match env.get_admin_by_id aid with
    | .error _ => []
    | .ok none => []
    | .ok (some admin) => [.notifyExceeded admin.user_id]

/-- scheduler.py lines 98-107: the inner per-user loop of
`cleanup_expired_users`.  Note the source calls `remove_user` for every listed
user; `is_expired` is never consulted.  Returns the effects and the number of
successful removals. -/
def removalEffects (env : Env) : List RemoteUser → List Effect × Nat
  | [] => ([], 0)
  | u :: rest =>
    let tail := removalEffects env rest
    match env.remove_user u.username with
    | .error _ => (.removeUser u.username :: tail.1, tail.2)
    | .ok true => (.removeUser u.username :: tail.1, tail.2 + 1)
    | .ok false => (.removeUser u.username :: tail.1, tail.2)

/-- scheduler.py lines 92-111: one admin of the cleanup loop.  Inactive admins
are skipped; a `get_users` failure abandons only this admin. -/
def cleanupAdmin (env : Env) (a : AdminAccount) : List Effect × Nat :=
  if a.is_active = false then ([], 0)
  else
    let uname := adminUsername a
    match env.get_users uname with
    | .error _ => ([.panelGetUsers uname], 0)
    | .ok users =>
      let r := removalEffects env users
      (.panelGetUsers uname :: r.1, r.2)

/-- The cleanup loop over a list of admins. -/
def cleanupAdmins (env : Env) : List AdminAccount → List Effect × Nat
  | [] => ([], 0)
  | a :: rest =>
    let h := cleanupAdmin env a
    let t := cleanupAdmins env rest
    (h.1 ++ t.1, h.2 + t.2)

/-- scheduler.py lines 88-124, `cleanup_expired_users`: run the per-admin
loop over all admins, then append one aggregate log entry when at least one
user was removed. -/
def cleanup_expired_users (env : Env) : List Effect :=
  let r := cleanupAdmins env env.get_all_admins
  if 0 < r.2 then
    r.1 ++ [.addLog
      { admin_user_id := none
        action := "expired_users_cleanup"
        details := "Automatically cleaned up " ++ toString r.2 ++ " expired users"
        timestamp := env.now }]
  else r.1

/-- scheduler.py lines 162-172: the per-admin body of `monitor_all_admins`.
Any exception escaping `check_admin_limits_by_id` is caught here and the loop
continues; dispatch prefers `exceeded` over `warning`. -/
def monitorAdmin (env : Env) (a : AdminAccount) : List Effect :=
  match check_admin_limits_by_id env a.id with
  | (.error _, effs) => effs
  | (.ok result, effs) =>
    if result.exceeded then effs ++ handle_limit_exceeded env result
    else if result.warning then effs ++ handle_limit_warning env result
    else effs

/-- The monitoring loop body over a list of admins. -/
def monitorAdmins (env : Env) : List AdminAccount → List Effect
  | [] => []
  | a :: rest => monitorAdmin env a ++ monitorAdmins env rest

/-- Configuration surface the scheduler core reads (src/config.py).
`BACKUP_INTERVAL` is an `Int` when the environment string parses as an
integer, otherwise the raw string (config.py lines 29-35). -/
inductive BackupInterval where
  | intVal (n : Int)
  | strVal (s : String)
deriving DecidableEq, Repr

/-- The configuration values `scheduler.py` reads from `config`. -/
structure Config where
  MONITORING_INTERVAL : Int
  AUTO_DELETE_EXPIRED_USERS : Bool
  BACKUP_INTERVAL : BackupInterval
  TELEGRAM_ADMIN_CHAT_ID : String
deriving Repr

/-- scheduler.py lines 149-176, `monitor_all_admins`: optionally run the
cleanup, enumerate all admins, return early when no admin is active,
otherwise run the per-admin loop over the full enumeration (line 162 iterates
`admins`, not `active_admins`). -/
def monitor_all_admins (cfg : Config) (env : Env) : List Effect :=
  (if cfg.AUTO_DELETE_EXPIRED_USERS then cleanup_expired_users env else []) ++
  (if env.get_all_admins.filter (fun a => a.is_active) = [] then []
   else monitorAdmins env env.get_all_admins)

/-- scheduler.py lines 126-147, `run_auto_backup`: call the Backup Service;
on `(true, filename)` write one log entry and, when the operator chat id is
configured (non-empty), send one success notification; on `(false, message)`
only print; any exception (including one from `create_backup` or `add_log`)
is caught and only printed. -/
def run_auto_backup (cfg : Config) (env : Env) : List Effect :=
  match env.create_backup true with
  | .error _ => []
  | .ok (success, message) =>
    if success then
      let entry : LogModel :=
        { admin_user_id := none
          action := "auto_backup"
          details := "Auto backup created: " ++ message
          timestamp := env.now }
      match env.add_log entry with
      | .error _ => [.addLog entry]
      | .ok _ =>
        if cfg.TELEGRAM_ADMIN_CHAT_ID = "" then [.addLog entry]
        else [.addLog entry, .notifyBackupSuccess cfg.TELEGRAM_ADMIN_CHAT_ID message]
    else []

/-- A registered job of the orchestrator. -/
structure JobSpec where
  job_id : String
  trigger : Trigger
deriving DecidableEq, Repr

/-- APScheduler `add_job` with `replace_existing=True`: a job with the same id
is replaced in place, otherwise the job is appended. -/
def addJob (jobs : List JobSpec) (j : JobSpec) : List JobSpec :=
  if jobs.any (fun k => k.job_id = j.job_id) then
    jobs.map (fun k => if k.job_id = j.job_id then j else k)
  else jobs ++ [j]

/-- scheduler.py lines 216-220: the cron-expression mapping
`{"daily": ..., "weekly": ..., "monthly": ...}.get(BACKUP_INTERVAL, "0 0 * * *")`.
An integer-valued `BACKUP_INTERVAL` never matches a string key, so it falls
to the default. -/
def cronExpression (b : BackupInterval) : String :=
  match b with
  | .strVal s =>
    if s = "daily" then "0 0 * * *"
    else if s = "weekly" then "0 0 * * 0"
    else if s = "monthly" then "0 0 1 * *"
    else "0 0 * * *"
  | .intVal _ => "0 0 * * *"

/-- The orchestrator state `scheduler.py` keeps: the running flag and the
registered jobs. -/
structure SchedulerState where
  is_running : Bool
  jobs : List JobSpec
deriving Repr

/-- scheduler.py lines 199-236, `start`: a no-op when already running;
otherwise register the monitor and backup jobs, start the timers, mark
running, then synchronously prime-run `monitor_all_admins` followed by
`run_auto_backup`. -/
def startScheduler (cfg : Config) (env : Env) (s : SchedulerState) :
    SchedulerState × List Effect :=
  if s.is_running then (s, [])
  else
    let monitorJob : JobSpec :=
      { job_id := "admin_monitor", trigger := .interval cfg.MONITORING_INTERVAL }
    let backupJob : JobSpec :=
      { job_id := "auto_backup", trigger := .cron (cronExpression cfg.BACKUP_INTERVAL) }
    let jobs := addJob (addJob s.jobs monitorJob) backupJob
    ({ is_running := true, jobs := jobs },
      .jobRegistered "admin_monitor" monitorJob.trigger
        :: .jobRegistered "auto_backup" backupJob.trigger
        :: .timerStarted
        :: (monitor_all_admins cfg env ++ run_auto_backup cfg env))

/-- scheduler.py lines 238-244, `stop`: a no-op when not running; otherwise
shut the timers down without waiting and mark stopped. -/
def stopScheduler (s : SchedulerState) : SchedulerState × List Effect :=
  if s.is_running = false then (s, [])
  else ({ is_running := false, jobs := s.jobs }, [.timerShutdown])

/-! ### Helper lemmas about `check_admin_limits_by_id` -/

/-- On the success path (admin found and active, stats and report append
succeed) the function returns the full result and exactly one Panel Client
call plus one report append. -/
theorem check_success (env : Env) (i : Int) (a : AdminAccount) (st : AdminStats)
    (h1 : env.get_admin_by_id i = .ok (some a))
    (h2 : a.is_active = true)
    (h3 : env.get_admin_stats (adminUsername a) = .ok st)
    (h4 : ∀ rep, env.add_usage_report rep = .ok ()) :
    check_admin_limits_by_id env i =
      (.ok (successResult a st env.now),
        [.panelStats (adminUsername a),
         .reportAppend (successReport a st env.now)]) := by
  simp [check_admin_limits_by_id, h1, h2, h3, h4]

/-- When the Panel Client call fails for an active admin, the function
returns the neutral result after exactly one Panel Client call. -/
theorem check_stats_error (env : Env) (i : Int) (a : AdminAccount)
    (h1 : env.get_admin_by_id i = .ok (some a))
    (h2 : a.is_active = true)
    (h3 : env.get_admin_stats (adminUsername a) = .error ()) :
    check_admin_limits_by_id env i =
      (.ok (neutralResult a.user_id), [.panelStats (adminUsername a)]) := by
  simp [check_admin_limits_by_id, h1, h2, h3]

/-- Claim C1: in `check_admin_limits_by_id`, for each of the three dimensions
(time, users, traffic), a zero ceiling gives a percentage of exactly `0`
regardless of the current value, a positive ceiling gives
`current / max`, and the result's `exceeded` flag is true iff at least one
dimension's percentage is `>= 1.0`. -/
theorem claim_c1 (env : Env) (i : Int) (a : AdminAccount) (st : AdminStats)
    (h1 : env.get_admin_by_id i = .ok (some a))
    (h2 : a.is_active = true)
    (h3 : env.get_admin_stats (adminUsername a) = .ok st)
    (h4 : ∀ rep, env.add_usage_report rep = .ok ()) :
    ∃ r ld effs, check_admin_limits_by_id env i = (.ok r, effs) ∧
      r.limits_data = some ld ∧
      (a.max_total_time = 0 → ld.time_percentage = 0) ∧
      (0 < a.max_total_time →
        ld.time_percentage = (env.now - a.created_at) / (a.max_total_time : ℚ)) ∧
      (a.max_users = 0 → ld.user_percentage = 0) ∧
      (0 < a.max_users →
        ld.user_percentage = (st.total_users : ℚ) / (a.max_users : ℚ)) ∧
      (a.max_total_traffic = 0 → ld.traffic_percentage = 0) ∧
      (0 < a.max_total_traffic →
        ld.traffic_percentage = (st.total_traffic_used : ℚ) / (a.max_total_traffic : ℚ)) ∧
      (r.exceeded = true ↔
        (1 ≤ ld.time_percentage ∨ 1 ≤ ld.user_percentage ∨ 1 ≤ ld.traffic_percentage)) := by
  refine ⟨successResult a st env.now, successLimitsData a st env.now, _,
    check_success env i a st h1 h2 h3 h4, rfl, ?_, ?_, ?_, ?_, ?_, ?_, ?_⟩
  · intro h
    simp [successLimitsData, timePercentage, h]
  · intro h
    simp [successLimitsData, timePercentage, h]
  · intro h
    simp [successLimitsData, userPercentage, h]
  · intro h
    simp [successLimitsData, userPercentage, h]
  · intro h
    simp [successLimitsData, trafficPercentage, h]
  · intro h
    simp [successLimitsData, trafficPercentage, h]
  · simp [successResult, successLimitsData, limitsExceeded, Bool.or_eq_true,
      decide_eq_true_iff, or_assoc]

/-- A concrete admin for witnesses: active, unlimited time, `max_users = 10`,
`max_total_traffic = 100`. -/
def wAdmin : AdminAccount :=
  { user_id := 11
    id := 1
    username := some "alice"
    marzban_username := none
    is_active := true
    created_at := 0
    max_users := 10
    max_total_time := 0
    max_total_traffic := 100 }

/-- Concrete live stats for witnesses. -/
def wStats : AdminStats := { total_users := 7, total_traffic_used := 50 }

/-- A concrete fully-successful environment for witnesses. -/
def wEnv : Env :=
  { now := 700
    get_admin_by_id := fun _ => .ok (some wAdmin)
    get_all_admins := [wAdmin]
    get_admin_stats := fun _ => .ok wStats
    get_users := fun _ => .ok []
    remove_user := fun _ => .ok true
    add_usage_report := fun _ => .ok ()
    add_log := fun _ => .ok ()
    create_backup := fun _ => .ok (true, "file") }

/-- Witness for claim C1 at a concrete admin and environment. -/
theorem claim_c1_witness :
    ∃ r ld effs, check_admin_limits_by_id wEnv 1 = (.ok r, effs) ∧
      r.limits_data = some ld ∧
      (wAdmin.max_total_time = 0 → ld.time_percentage = 0) ∧
      (0 < wAdmin.max_total_time →
        ld.time_percentage = (wEnv.now - wAdmin.created_at) / (wAdmin.max_total_time : ℚ)) ∧
      (wAdmin.max_users = 0 → ld.user_percentage = 0) ∧
      (0 < wAdmin.max_users →
        ld.user_percentage = (wStats.total_users : ℚ) / (wAdmin.max_users : ℚ)) ∧
      (wAdmin.max_total_traffic = 0 → ld.traffic_percentage = 0) ∧
      (0 < wAdmin.max_total_traffic →
        ld.traffic_percentage = (wStats.total_traffic_used : ℚ) / (wAdmin.max_total_traffic : ℚ)) ∧
      (r.exceeded = true ↔
        (1 ≤ ld.time_percentage ∨ 1 ≤ ld.user_percentage ∨ 1 ≤ ld.traffic_percentage)) :=
  claim_c1 wEnv 1 wAdmin wStats rfl rfl rfl (fun _ => rfl)

/-- An environment whose store lookup `get_admin_by_id` itself raises. -/
def wEnvLookupError : Env :=
  { wEnv with get_admin_by_id := fun _ => .error () }

/-- Claim C4 (failing input): when the initial store lookup
`get_admin_by_id` raises, `check_admin_limits_by_id` does not return a
neutral result — the `except`-handler reads the never-assigned local `admin`
and an `UnboundLocalError` escapes the function. -/
theorem claim_c4_bug :
    check_admin_limits_by_id wEnvLookupError 7 = (.error .unboundLocal, []) := rfl

/-- Claim C5: for an admin id whose account is missing or inactive,
`check_admin_limits_by_id` returns a neutral result (`exceeded = false`,
`warning = false`) with zero Panel Client calls and zero report writes, and
the outcome is a normal return, not an error. -/
theorem claim_c5 (env : Env) (i : Int) (a : AdminAccount) :
    (env.get_admin_by_id i = .ok none →
      ∃ r, check_admin_limits_by_id env i = (.ok r, []) ∧
        r.exceeded = false ∧ r.warning = false) ∧
    (env.get_admin_by_id i = .ok (some a) → a.is_active = false →
      ∃ r, check_admin_limits_by_id env i = (.ok r, []) ∧
        r.exceeded = false ∧ r.warning = false) := by
  constructor
  · intro h
    exact ⟨neutralResult 0, by simp [check_admin_limits_by_id, h], rfl, rfl⟩
  · intro h ha
    exact ⟨neutralResult a.user_id,
      by simp [check_admin_limits_by_id, h, ha], rfl, rfl⟩

/-- An environment whose store holds no admin for any id. -/
def wEnvMissing : Env :=
  { wEnv with get_admin_by_id := fun _ => .ok none }

/-- An inactive concrete admin. -/
def wAdminInactive : AdminAccount :=
  { wAdmin with id := 2, user_id := 22, is_active := false }

/-- An environment whose store returns the inactive admin for every id. -/
def wEnvInactive : Env :=
  { wEnv with get_admin_by_id := fun _ => .ok (some wAdminInactive) }

/-- Witness for claim C5: both the missing-admin and the inactive-admin cases
at concrete environments. -/
theorem claim_c5_witness :
    (∃ r, check_admin_limits_by_id wEnvMissing 1 = (.ok r, []) ∧
      r.exceeded = false ∧ r.warning = false) ∧
    (∃ r, check_admin_limits_by_id wEnvInactive 2 = (.ok r, []) ∧
      r.exceeded = false ∧ r.warning = false) :=
  ⟨(claim_c5 wEnvMissing 1 wAdminInactive).1 rfl,
   (claim_c5 wEnvInactive 2 wAdminInactive).2 rfl rfl⟩

/-- The per-dimension warning test of lines 52-54 collapses to membership in
the half-open interval from `0.6` to `1`: every discrete level is at least
`0.6`, and `0.6` itself is one of the levels. -/
theorem crossesWarning_iff (p : ℚ) : crossesWarning p = true ↔ (6/10 ≤ p ∧ p < 1) := by
  simp only [crossesWarning, warningLevels, List.any_cons, List.any_nil,
    Bool.or_eq_true, Bool.and_eq_true, decide_eq_true_iff, Bool.or_false]
  constructor
  · rintro (⟨h1, h2⟩ | ⟨h1, h2⟩ | ⟨h1, h2⟩ | ⟨h1, h2⟩) <;> exact ⟨by linarith, h2⟩
  · rintro ⟨h1, h2⟩
    exact Or.inl ⟨h1, h2⟩

/-- The effect list of `check_admin_limits_by_id` is empty, one Panel Client
call, or one Panel Client call followed by one report append. -/
theorem check_effects_cases (env : Env) (i : Int)
    (res : Except PyError LimitCheckResult) (effs : List Effect)
    (hc : check_admin_limits_by_id env i = (res, effs)) :
    effs = [] ∨ (∃ u, effs = [.panelStats u]) ∨
    (∃ u rep, effs = [.panelStats u, .reportAppend rep]) := by
  rcases henv : env.get_admin_by_id i with u | o
  · simp [check_admin_limits_by_id, henv] at hc
    exact Or.inl hc.2
  · rcases o with _ | a
    · simp [check_admin_limits_by_id, henv] at hc
      exact Or.inl hc.2
    · by_cases hact : a.is_active = false
      · simp [check_admin_limits_by_id, henv, hact] at hc
        exact Or.inl hc.2
      · rcases hst : env.get_admin_stats (adminUsername a) with u | st
        · simp [check_admin_limits_by_id, henv, hact, hst] at hc
          exact Or.inr (Or.inl ⟨_, hc.2.symm⟩)
        · rcases hrep : env.add_usage_report (successReport a st env.now) with u | u
          · simp [check_admin_limits_by_id, henv, hact, hst, hrep] at hc
            exact Or.inr (Or.inr ⟨_, _, hc.2.symm⟩)
          · simp [check_admin_limits_by_id, henv, hact, hst, hrep] at hc
            exact Or.inr (Or.inr ⟨_, _, hc.2.symm⟩)

/-- `handle_limit_exceeded` never emits a warning notification. -/
theorem notifyWarning_not_mem_handle_exceeded (env : Env) (r : LimitCheckResult)
    (c : Int) (p : Int) :
    Effect.notifyWarning c p ∉ handle_limit_exceeded env r := by
  rcases h : r.admin_id with _ | aid
  · simp [handle_limit_exceeded, h]
  · rcases h2 : env.get_admin_by_id aid with u | o
    · simp [handle_limit_exceeded, h, h2]
    · rcases o with _ | adm <;> simp [handle_limit_exceeded, h, h2]

/-- When the id is set and the re-fetch succeeds, `handle_limit_exceeded`
sends exactly one exceeded notification to the admin's own chat. -/
theorem handle_exceeded_sends (env : Env) (r : LimitCheckResult)
    (aid : Int) (adm : AdminAccount)
    (h1 : r.admin_id = some aid)
    (h2 : env.get_admin_by_id aid = .ok (some adm)) :
    handle_limit_exceeded env r = [.notifyExceeded adm.user_id] := by
  simp [handle_limit_exceeded, h1, h2]

/-- When the check result has `exceeded` set, the per-admin monitoring body
appends exactly the exceeded-dispatch effects. -/
theorem monitorAdmin_exceeded (env : Env) (a : AdminAccount)
    (result : LimitCheckResult) (effs : List Effect)
    (hc : check_admin_limits_by_id env a.id = (.ok result, effs))
    (he : result.exceeded = true) :
    monitorAdmin env a = effs ++ handle_limit_exceeded env result := by
  simp [monitorAdmin, hc, he]

/-- Claim C2: `warning` is true iff at least one dimension's percentage lies
in the half-open interval from `0.6` (inclusive) to `1.0` (exclusive);
`warning` is computed independently of `exceeded` (it is a function of the
percentages alone); and when the monitoring loop dispatches a result with
both `exceeded` and `warning` set, only the exceeded notification is sent,
never the warning one. -/
theorem claim_c2 :
    (∀ tp up trp : ℚ, warningNeeded tp up trp = true ↔
      ((6/10 ≤ tp ∧ tp < 1) ∨ (6/10 ≤ up ∧ up < 1) ∨ (6/10 ≤ trp ∧ trp < 1))) ∧
    (∀ (env : Env) (a : AdminAccount) (result : LimitCheckResult) (effs : List Effect),
      check_admin_limits_by_id env a.id = (.ok result, effs) →
      result.exceeded = true → result.warning = true →
      (∀ c p, Effect.notifyWarning c p ∉ monitorAdmin env a) ∧
      (∀ aid adm, result.admin_id = some aid →
        env.get_admin_by_id aid = .ok (some adm) →
        monitorAdmin env a = effs ++ [.notifyExceeded adm.user_id])) := by
  constructor
  · intro tp up trp
    simp only [warningNeeded, Bool.or_eq_true, crossesWarning_iff]
    tauto
  · intro env a result effs hc he _
    constructor
    · intro c p hmem
      rw [monitorAdmin_exceeded env a result effs hc he] at hmem
      rcases List.mem_append.mp hmem with h | h
      · rcases check_effects_cases env a.id (.ok result) effs hc with
          h0 | ⟨u, h1⟩ | ⟨u, rep, h2⟩
        · rw [h0] at h
          simp at h
        · rw [h1] at h
          simp at h
        · rw [h2] at h
          simp at h
      · exact notifyWarning_not_mem_handle_exceeded env result c p h
    · intro aid adm h1 h2
      rw [monitorAdmin_exceeded env a result effs hc he,
        handle_exceeded_sends env result aid adm h1 h2]

/-- A concrete admin saturating its time ceiling (exceeded) while its user
ratio sits at `0.7` (warning range). -/
def wAdmin2 : AdminAccount :=
  { user_id := 11
    id := 1
    username := none
    marzban_username := some "alice2"
    is_active := true
    created_at := 0
    max_users := 10
    max_total_time := 1000
    max_total_traffic := 0 }

/-- Live stats for the C2 witness. -/
def wStats2 : AdminStats := { total_users := 7, total_traffic_used := 50 }

/-- Environment for the C2 witness: all collaborator calls succeed, the clock
reads 1500 seconds after the admin's creation. -/
def wEnv2 : Env :=
  { now := 1500
    get_admin_by_id := fun _ => .ok (some wAdmin2)
    get_all_admins := [wAdmin2]
    get_admin_stats := fun _ => .ok wStats2
    get_users := fun _ => .ok []
    remove_user := fun _ => .ok true
    add_usage_report := fun _ => .ok ()
    add_log := fun _ => .ok ()
    create_backup := fun _ => .ok (true, "file") }

/-- Witness for claim C2: at a concrete admin whose result has both flags
set, the dispatched effects contain exactly the exceeded notification, and a
warning notification is absent. -/
theorem claim_c2_witness :
    monitorAdmin wEnv2 wAdmin2 =
      [.panelStats (adminUsername wAdmin2),
       .reportAppend (successReport wAdmin2 wStats2 wEnv2.now),
       .notifyExceeded 11] ∧
    Effect.notifyWarning 11 70 ∉ monitorAdmin wEnv2 wAdmin2 := by
  have h := claim_c2.2 wEnv2 wAdmin2 (successResult wAdmin2 wStats2 wEnv2.now)
    [.panelStats (adminUsername wAdmin2),
     .reportAppend (successReport wAdmin2 wStats2 wEnv2.now)]
    rfl
    (by norm_num [successResult, limitsExceeded, timePercentage, userPercentage,
      trafficPercentage, wAdmin2, wStats2, wEnv2])
    (by norm_num [successResult, warningNeeded, crossesWarning, warningLevels,
      timePercentage, userPercentage, trafficPercentage, wAdmin2, wStats2, wEnv2])
  exact ⟨h.2 1 wAdmin2 rfl rfl, h.1 11 70⟩

/-- A remote user the Panel Client reports as NOT expired. -/
def wUserActive : RemoteUser := { username := "bob", is_expired := false }

/-- An active admin for the cleanup scenario. -/
def wAdmin6 : AdminAccount :=
  { wAdmin with id := 6, user_id := 66, marzban_username := some "a6" }

/-- Environment for the cleanup scenario: one active admin whose user list
contains exactly one non-expired user; removals succeed. -/
def wEnv6 : Env :=
  { wEnv with
    get_all_admins := [wAdmin6]
    get_users := fun _ => .ok [wUserActive] }

/-- Claim C6 (failing input): `cleanup_expired_users` calls `remove_user` for
a user the Panel Client flags as NOT expired — the loop at scheduler.py lines
98-104 never consults `is_expired`. -/
theorem claim_c6_bug :
    wUserActive.is_expired = false ∧
    Effect.removeUser "bob" ∈ cleanup_expired_users wEnv6 := by
  refine ⟨rfl, ?_⟩
  decide

/-- Environment whose Backup Service reports a failure with a message. -/
def wEnvBackupFail : Env :=
  { wEnv with create_backup := fun _ => .ok (false, "disk full") }

/-- The configuration used by the backup witnesses: operator chat
configured. -/
def wCfg : Config :=
  { MONITORING_INTERVAL := 600
    AUTO_DELETE_EXPIRED_USERS := false
    BACKUP_INTERVAL := .strVal "daily"
    TELEGRAM_ADMIN_CHAT_ID := "ops" }

/-- Claim C7 counterexample: when the Backup Service returns
`(false, "disk full")`, `run_auto_backup` records zero log entries and sends
zero notifications — not the one log entry the claim requires (the failure
branch at scheduler.py line 145 only prints). -/
theorem claim_c7_counterexample :
    wEnvBackupFail.create_backup true = .ok (false, "disk full") ∧
    run_auto_backup wCfg wEnvBackupFail = [] := ⟨rfl, rfl⟩

/-- Claim C7 (amended): when the Backup Service returns `(false, message)`,
`run_auto_backup` records no store log entry and sends no notification (the
failure is only printed); on `(true, filename)` with a working store and a
configured operator chat it records exactly one log entry whose details carry
the filename and sends exactly one operator notification. -/
theorem claim_c7 (cfg : Config) (env : Env) (m : String) :
    (env.create_backup true = .ok (false, m) → run_auto_backup cfg env = []) ∧
    (env.create_backup true = .ok (true, m) →
      (∀ l, env.add_log l = .ok ()) →
      cfg.TELEGRAM_ADMIN_CHAT_ID ≠ "" →
      run_auto_backup cfg env =
        [.addLog { admin_user_id := none, action := "auto_backup",
                   details := "Auto backup created: " ++ m, timestamp := env.now },
         .notifyBackupSuccess cfg.TELEGRAM_ADMIN_CHAT_ID m]) := by
  constructor
  · intro h
    simp [run_auto_backup, h]
  · intro h hl hch
    simp [run_auto_backup, h, hl, hch]

/-- Witness for claim C7: the failure branch at a concrete environment, and
the success branch at a concrete environment with a configured chat. -/
theorem claim_c7_witness :
    run_auto_backup wCfg wEnvBackupFail = [] ∧
    run_auto_backup wCfg wEnv =
      [.addLog { admin_user_id := none, action := "auto_backup",
                 details := "Auto backup created: " ++ "file", timestamp := wEnv.now },
       .notifyBackupSuccess wCfg.TELEGRAM_ADMIN_CHAT_ID "file"] :=
  ⟨(claim_c7 wCfg wEnvBackupFail "disk full").1 rfl,
   (claim_c7 wCfg wEnv "file").2 rfl (fun _ => rfl) (by decide)⟩

/-- An admin with a positive traffic ceiling for the C8 scenario. -/
def wAdmin8 : AdminAccount :=
  { wAdmin with id := 8, user_id := 88, max_total_traffic := 10 }

/-- Live stats observing half the traffic ceiling used. -/
def wStats8 : AdminStats := { total_users := 7, total_traffic_used := 5 }

/-- Environment for the C8 scenario. -/
def wEnv8 : Env :=
  { wEnv with
    get_admin_by_id := fun _ => .ok (some wAdmin8)
    get_admin_stats := fun _ => .ok wStats8 }

/-- Claim C8 counterexample: on a successful evaluation with observed
`total_traffic_used = 5`, the `limits_data` mapping's `current_traffic` entry
is `0`, not the observed value the traffic percentage was computed from
(scheduler.py line 78 hard-codes `0`). -/
theorem claim_c8_counterexample :
    check_admin_limits_by_id wEnv8 8 =
      (.ok (successResult wAdmin8 wStats8 wEnv8.now),
        [.panelStats (adminUsername wAdmin8),
         .reportAppend (successReport wAdmin8 wStats8 wEnv8.now)]) ∧
    (successResult wAdmin8 wStats8 wEnv8.now).limits_data =
      some (successLimitsData wAdmin8 wStats8 wEnv8.now) ∧
    wStats8.total_traffic_used = 5 ∧
    (successLimitsData wAdmin8 wStats8 wEnv8.now).traffic_percentage = 1/2 ∧
    (successLimitsData wAdmin8 wStats8 wEnv8.now).current_traffic = 0 ∧
    (successLimitsData wAdmin8 wStats8 wEnv8.now).current_traffic ≠
      wStats8.total_traffic_used := by
  refine ⟨rfl, rfl, rfl, ?_, rfl, by decide⟩
  norm_num [successLimitsData, trafficPercentage, wAdmin8, wAdmin, wStats8]

/-- Claim C8 (amended): on a successful evaluation, `limits_data` carries the
raw current/max pairs for the user and time dimensions and the traffic
ceiling, and the three percentages actually used — but the `current_traffic`
entry is always `0`, regardless of the observed `total_traffic_used` (which
still drives `traffic_percentage`). -/
theorem claim_c8 (env : Env) (i : Int) (a : AdminAccount) (st : AdminStats)
    (h1 : env.get_admin_by_id i = .ok (some a))
    (h2 : a.is_active = true)
    (h3 : env.get_admin_stats (adminUsername a) = .ok st)
    (h4 : ∀ rep, env.add_usage_report rep = .ok ()) :
    ∃ r ld effs, check_admin_limits_by_id env i = (.ok r, effs) ∧
      r.limits_data = some ld ∧
      ld.current_users = st.total_users ∧
      ld.max_users = a.max_users ∧
      ld.current_time = env.now - a.created_at ∧
      ld.max_time = a.max_total_time ∧
      ld.max_traffic = a.max_total_traffic ∧
      ld.current_traffic = 0 ∧
      ld.user_percentage = userPercentage a st ∧
      ld.time_percentage = timePercentage a (env.now - a.created_at) ∧
      ld.traffic_percentage = trafficPercentage a st :=
  ⟨successResult a st env.now, successLimitsData a st env.now, _,
    check_success env i a st h1 h2 h3 h4,
    rfl, rfl, rfl, rfl, rfl, rfl, rfl, rfl, rfl, rfl⟩

/-- Witness for claim C8 (amended) at a concrete environment. -/
theorem claim_c8_witness :
    ∃ r ld effs, check_admin_limits_by_id wEnv8 8 = (.ok r, effs) ∧
      r.limits_data = some ld ∧
      ld.current_users = wStats8.total_users ∧
      ld.max_users = wAdmin8.max_users ∧
      ld.current_time = wEnv8.now - wAdmin8.created_at ∧
      ld.max_time = wAdmin8.max_total_time ∧
      ld.max_traffic = wAdmin8.max_total_traffic ∧
      ld.current_traffic = 0 ∧
      ld.user_percentage = userPercentage wAdmin8 wStats8 ∧
      ld.time_percentage = timePercentage wAdmin8 (wEnv8.now - wAdmin8.created_at) ∧
      ld.traffic_percentage = trafficPercentage wAdmin8 wStats8 :=
  claim_c8 wEnv8 8 wAdmin8 wStats8 rfl rfl rfl (fun _ => rfl)

/-- Whether an effect is a UsageReport append. -/
def isReportAppend : Effect → Bool
  | .reportAppend _ => true
  | _ => false

/-- The number of UsageReport appends in an effect list. -/
def countAppends (l : List Effect) : Nat := (l.filter isReportAppend).length

theorem countAppends_append (l1 l2 : List Effect) :
    countAppends (l1 ++ l2) = countAppends l1 + countAppends l2 := by
  simp [countAppends, List.filter_append]

theorem countAppends_handle_exceeded (env : Env) (r : LimitCheckResult) :
    countAppends (handle_limit_exceeded env r) = 0 := by
  rcases h : r.admin_id with _ | aid
  · simp [handle_limit_exceeded, h, countAppends]
  · rcases h2 : env.get_admin_by_id aid with u | o
    · simp [handle_limit_exceeded, h, h2, countAppends]
    · rcases o with _ | adm <;>
        simp [handle_limit_exceeded, h, h2, countAppends, isReportAppend]

theorem countAppends_handle_warning (env : Env) (r : LimitCheckResult) :
    countAppends (handle_limit_warning env r) = 0 := by
  rcases h : r.admin_id with _ | aid
  · simp [handle_limit_warning, h, countAppends]
  · rcases h2 : env.get_admin_by_id aid with u | o
    · simp [handle_limit_warning, h, h2, countAppends]
    · rcases o with _ | adm
      · simp [handle_limit_warning, h, h2, countAppends]
      · rcases h3 : r.limits_data with _ | ld <;>
          simp [handle_limit_warning, h, h2, h3, countAppends, isReportAppend]

/-- When the check result has `warning` set but not `exceeded`, the per-admin
body appends the warning-dispatch effects. -/
theorem monitorAdmin_warning (env : Env) (a : AdminAccount)
    (result : LimitCheckResult) (effs : List Effect)
    (hc : check_admin_limits_by_id env a.id = (.ok result, effs))
    (he : result.exceeded = false) (hw : result.warning = true) :
    monitorAdmin env a = effs ++ handle_limit_warning env result := by
  simp [monitorAdmin, hc, he, hw]

/-- When the check result has neither flag, the per-admin body dispatches
nothing. -/
theorem monitorAdmin_plain (env : Env) (a : AdminAccount)
    (result : LimitCheckResult) (effs : List Effect)
    (hc : check_admin_limits_by_id env a.id = (.ok result, effs))
    (he : result.exceeded = false) (hw : result.warning = false) :
    monitorAdmin env a = effs := by
  simp [monitorAdmin, hc, he, hw]

/-- A fully-successful admin contributes exactly one report append to the
cycle, whatever its flags. -/
theorem countAppends_monitorAdmin_good (env : Env) (a : AdminAccount) (st : AdminStats)
    (h1 : env.get_admin_by_id a.id = .ok (some a))
    (h2 : a.is_active = true)
    (h3 : env.get_admin_stats (adminUsername a) = .ok st)
    (h4 : ∀ rep, env.add_usage_report rep = .ok ()) :
    countAppends (monitorAdmin env a) = 1 := by
  have hc := check_success env a.id a st h1 h2 h3 h4
  rcases Bool.eq_false_or_eq_true (successResult a st env.now).exceeded with he | he
  · rw [monitorAdmin_exceeded env a _ _ hc he, countAppends_append,
      countAppends_handle_exceeded]
    simp [countAppends, isReportAppend]
  · rcases Bool.eq_false_or_eq_true (successResult a st env.now).warning with hw | hw
    · rw [monitorAdmin_warning env a _ _ hc he hw, countAppends_append,
        countAppends_handle_warning]
      simp [countAppends, isReportAppend]
    · rw [monitorAdmin_plain env a _ _ hc he hw]
      simp [countAppends, isReportAppend]

/-- An admin whose Panel Client call fails contributes zero report appends. -/
theorem countAppends_monitorAdmin_bad (env : Env) (a : AdminAccount)
    (h1 : env.get_admin_by_id a.id = .ok (some a))
    (h2 : a.is_active = true)
    (h3 : env.get_admin_stats (adminUsername a) = .error ()) :
    countAppends (monitorAdmin env a) = 0 := by
  have hc := check_stats_error env a.id a h1 h2 h3
  rw [monitorAdmin_plain env a _ _ hc rfl rfl]
  simp [countAppends, isReportAppend]

theorem monitorAdmins_append (env : Env) (l1 l2 : List AdminAccount) :
    monitorAdmins env (l1 ++ l2) = monitorAdmins env l1 ++ monitorAdmins env l2 := by
  induction l1 with
  | nil => rfl
  | cons a rest ih => simp [monitorAdmins, ih]

/-- Over a list of fully-successful admins the cycle appends one report per
admin. -/
theorem countAppends_monitorAdmins_good (env : Env) (l : List AdminAccount)
    (hg : ∀ a ∈ l, env.get_admin_by_id a.id = .ok (some a) ∧ a.is_active = true ∧
      ∃ st, env.get_admin_stats (adminUsername a) = .ok st)
    (h4 : ∀ rep, env.add_usage_report rep = .ok ()) :
    countAppends (monitorAdmins env l) = l.length := by
  induction l with
  | nil => rfl
  | cons a rest ih =>
    obtain ⟨hl, ha, st, hst⟩ := hg a (List.mem_cons_self a rest)
    have hrest := ih (fun x hx => hg x (List.mem_cons_of_mem a hx))
    simp [monitorAdmins, countAppends_append,
      countAppends_monitorAdmin_good env a st hl ha hst h4, hrest]
    omega

/-- Claim C3: over a set of active admins for which the Panel Client fails
for exactly one (the one at the split point) and succeeds for all others,
one invocation of the monitoring cycle appends exactly `N - 1` UsageReports —
none for the failing admin and one per other admin — and the loop runs to
completion (every admin after the failing one is still processed; the function
is total, so no exception escapes). -/
theorem claim_c3 (cfg : Config) (env : Env) (l1 l2 : List AdminAccount)
    (bad : AdminAccount)
    (hadmins : env.get_all_admins = l1 ++ bad :: l2)
    (hcfg : cfg.AUTO_DELETE_EXPIRED_USERS = false)
    (hg1 : ∀ a ∈ l1, env.get_admin_by_id a.id = .ok (some a) ∧ a.is_active = true ∧
      ∃ st, env.get_admin_stats (adminUsername a) = .ok st)
    (hg2 : ∀ a ∈ l2, env.get_admin_by_id a.id = .ok (some a) ∧ a.is_active = true ∧
      ∃ st, env.get_admin_stats (adminUsername a) = .ok st)
    (hbl : env.get_admin_by_id bad.id = .ok (some bad))
    (hba : bad.is_active = true)
    (hbs : env.get_admin_stats (adminUsername bad) = .error ())
    (h4 : ∀ rep, env.add_usage_report rep = .ok ()) :
    countAppends (monitor_all_admins cfg env) = (l1 ++ bad :: l2).length - 1 := by
  have hfil : (l1 ++ bad :: l2).filter (fun a => a.is_active) ≠ [] := by
    intro hemp
    have hmem : bad ∈ (l1 ++ bad :: l2).filter (fun a => a.is_active) :=
      List.mem_filter.mpr ⟨by simp, hba⟩
    rw [hemp] at hmem
    simp at hmem
  have hmon : monitor_all_admins cfg env = monitorAdmins env (l1 ++ bad :: l2) := by
    unfold monitor_all_admins
    rw [hadmins, hcfg, if_neg hfil]
    simp
  rw [hmon, monitorAdmins_append, countAppends_append,
    show monitorAdmins env (bad :: l2) = monitorAdmin env bad ++ monitorAdmins env l2 from rfl,
    countAppends_append,
    countAppends_monitorAdmins_good env l1 hg1 h4,
    countAppends_monitorAdmins_good env l2 hg2 h4,
    countAppends_monitorAdmin_bad env bad hbl hba hbs]
  simp only [List.length_append, List.length_cons]
  omega

/-- First witness admin for C3 (Panel Client succeeds). -/
def wA1 : AdminAccount := { wAdmin with id := 1, user_id := 101, marzban_username := some "u1" }

/-- Second witness admin for C3 (Panel Client fails for this one). -/
def wA2 : AdminAccount := { wAdmin with id := 2, user_id := 102, marzban_username := some "u2" }

/-- Third witness admin for C3 (Panel Client succeeds). -/
def wA3 : AdminAccount := { wAdmin with id := 3, user_id := 103, marzban_username := some "u3" }

/-- Environment for the C3 witness: three active admins, stats fail only for
the second. -/
def wEnv3 : Env :=
  { wEnv with
    get_all_admins := [wA1, wA2, wA3]
    get_admin_by_id := fun i =>
      if i = 1 then .ok (some wA1)
      else if i = 2 then .ok (some wA2)
      else if i = 3 then .ok (some wA3)
      else .ok none
    get_admin_stats := fun u => if u = "u2" then .error () else .ok wStats }

/-- Witness for claim C3: three active admins, the Panel Client fails for the
middle one, and the cycle appends exactly two reports. -/
theorem claim_c3_witness :
    countAppends (monitor_all_admins wCfg wEnv3) = ([wA1] ++ wA2 :: [wA3]).length - 1 :=
  claim_c3 wCfg wEnv3 [wA1] [wA3] wA2 rfl rfl
    (by
      intro a ha
      simp only [List.mem_singleton] at ha
      subst ha
      exact ⟨rfl, rfl, ⟨wStats, rfl⟩⟩)
    (by
      intro a ha
      simp only [List.mem_singleton] at ha
      subst ha
      exact ⟨rfl, rfl, ⟨wStats, rfl⟩⟩)
    rfl rfl rfl (fun _ => rfl)

/-- `add_job` with `replace_existing=True` always leaves the new job
registered. -/
theorem mem_addJob_self (jobs : List JobSpec) (j : JobSpec) : j ∈ addJob jobs j := by
  unfold addJob
  by_cases h : jobs.any (fun k => k.job_id = j.job_id) = true
  · rw [if_pos h]
    obtain ⟨k, hk, he⟩ := List.any_eq_true.mp h
    exact List.mem_map.mpr ⟨k, hk, by simp [of_decide_eq_true he]⟩
  · rw [if_neg h]
    exact List.mem_append_right _ (List.mem_singleton_self j)

/-- Registering a job under one id leaves jobs with a different id in
place. -/
theorem mem_addJob_of_ne (jobs : List JobSpec) (j k : JobSpec)
    (hk : k ∈ jobs) (hne : k.job_id ≠ j.job_id) : k ∈ addJob jobs j := by
  unfold addJob
  by_cases h : jobs.any (fun x => x.job_id = j.job_id) = true
  · rw [if_pos h]
    exact List.mem_map.mpr ⟨k, hk, by simp [hne]⟩
  · rw [if_neg h]
    exact List.mem_append_left _ hk

/-- Claim C9: starting the orchestrator when it is not running registers the
`admin_monitor` and `auto_backup` jobs, starts the timer infrastructure, and
then synchronously prime-runs the monitor job followed by the backup job;
`start()` while already running does nothing, and `stop()` while already
stopped does nothing. -/
theorem claim_c9 (cfg : Config) (env : Env) (s : SchedulerState) :
    (s.is_running = false →
      ((startScheduler cfg env s).1.is_running = true ∧
       ({ job_id := "admin_monitor",
          trigger := .interval cfg.MONITORING_INTERVAL } : JobSpec) ∈
         (startScheduler cfg env s).1.jobs ∧
       ({ job_id := "auto_backup",
          trigger := .cron (cronExpression cfg.BACKUP_INTERVAL) } : JobSpec) ∈
         (startScheduler cfg env s).1.jobs ∧
       (startScheduler cfg env s).2 =
         .jobRegistered "admin_monitor" (.interval cfg.MONITORING_INTERVAL)
           :: .jobRegistered "auto_backup" (.cron (cronExpression cfg.BACKUP_INTERVAL))
           :: .timerStarted
           :: (monitor_all_admins cfg env ++ run_auto_backup cfg env))) ∧
    (s.is_running = true → startScheduler cfg env s = (s, [])) ∧
    (s.is_running = false → stopScheduler s = (s, [])) := by
  refine ⟨?_, ?_, ?_⟩
  · intro h
    refine ⟨by simp [startScheduler, h], ?_, ?_, by simp [startScheduler, h]⟩
    · have hjobs : (startScheduler cfg env s).1.jobs =
          addJob (addJob s.jobs
            { job_id := "admin_monitor", trigger := .interval cfg.MONITORING_INTERVAL })
            { job_id := "auto_backup", trigger := .cron (cronExpression cfg.BACKUP_INTERVAL) } := by
        simp [startScheduler, h]
      rw [hjobs]
      exact mem_addJob_of_ne _ _ _ (mem_addJob_self _ _) (by simp)
    · have hjobs : (startScheduler cfg env s).1.jobs =
          addJob (addJob s.jobs
            { job_id := "admin_monitor", trigger := .interval cfg.MONITORING_INTERVAL })
            { job_id := "auto_backup", trigger := .cron (cronExpression cfg.BACKUP_INTERVAL) } := by
        simp [startScheduler, h]
      rw [hjobs]
      exact mem_addJob_self _ _
  · intro h
    simp [startScheduler, h]
  · intro h
    simp [stopScheduler, h]

/-- A stopped orchestrator state with no registered jobs. -/
def wStopped : SchedulerState := { is_running := false, jobs := [] }

/-- A running orchestrator state. -/
def wRunning : SchedulerState := { is_running := true, jobs := [] }

/-- Witness for claim C9 at concrete configuration, environment and states. -/
theorem claim_c9_witness :
    ((startScheduler wCfg wEnv wStopped).1.is_running = true ∧
     ({ job_id := "admin_monitor",
        trigger := .interval wCfg.MONITORING_INTERVAL } : JobSpec) ∈
       (startScheduler wCfg wEnv wStopped).1.jobs ∧
     ({ job_id := "auto_backup",
        trigger := .cron (cronExpression wCfg.BACKUP_INTERVAL) } : JobSpec) ∈
       (startScheduler wCfg wEnv wStopped).1.jobs ∧
     (startScheduler wCfg wEnv wStopped).2 =
       .jobRegistered "admin_monitor" (.interval wCfg.MONITORING_INTERVAL)
         :: .jobRegistered "auto_backup" (.cron (cronExpression wCfg.BACKUP_INTERVAL))
         :: .timerStarted
         :: (monitor_all_admins wCfg wEnv ++ run_auto_backup wCfg wEnv)) ∧
    startScheduler wCfg wEnv wRunning = (wRunning, []) ∧
    stopScheduler wStopped = (wStopped, []) :=
  ⟨(claim_c9 wCfg wEnv wStopped).1 rfl,
   (claim_c9 wCfg wEnv wRunning).2.1 rfl,
   (claim_c9 wCfg wEnv wStopped).2.2 rfl⟩

/-- Claim C10: any `BACKUP_INTERVAL` other than the exact strings "daily",
"weekly" or "monthly" — including the integer form the configuration loader
produces — maps to the daily-midnight cron expression, and orchestrator start
still registers the `auto_backup` job with that schedule (no value is
rejected). -/
theorem claim_c10 (cfg : Config) (env : Env) (s : SchedulerState) (b : BackupInterval)
    (hb : cfg.BACKUP_INTERVAL = b)
    (h1 : b ≠ .strVal "daily") (h2 : b ≠ .strVal "weekly") (h3 : b ≠ .strVal "monthly")
    (hs : s.is_running = false) :
    cronExpression b = "0 0 * * *" ∧
    (∀ n : Int, cronExpression (.intVal n) = "0 0 * * *") ∧
    ({ job_id := "auto_backup", trigger := .cron "0 0 * * *" } : JobSpec) ∈
      (startScheduler cfg env s).1.jobs := by
  have hcron : cronExpression b = "0 0 * * *" := by
    rcases b with n | sv
    · rfl
    · have e1 : sv ≠ "daily" := fun he => h1 (by rw [he])
      have e2 : sv ≠ "weekly" := fun he => h2 (by rw [he])
      have e3 : sv ≠ "monthly" := fun he => h3 (by rw [he])
      simp [cronExpression, e1, e2, e3]
  refine ⟨hcron, fun n => rfl, ?_⟩
  have hjobs : (startScheduler cfg env s).1.jobs =
      addJob (addJob s.jobs
        { job_id := "admin_monitor", trigger := .interval cfg.MONITORING_INTERVAL })
        { job_id := "auto_backup", trigger := .cron (cronExpression cfg.BACKUP_INTERVAL) } := by
    simp [startScheduler, hs]
  rw [hjobs, hb, hcron]
  exact mem_addJob_self _ _

/-- Configuration whose backup interval is the raw integer the loader
produces for a numeric environment value. -/
def wCfg10 : Config := { wCfg with BACKUP_INTERVAL := .intVal 3600 }

/-- Witness for claim C10 at the integer backup interval `3600`. -/
theorem claim_c10_witness :
    cronExpression (.intVal 3600) = "0 0 * * *" ∧
    ({ job_id := "auto_backup", trigger := .cron "0 0 * * *" } : JobSpec) ∈
      (startScheduler wCfg10 wEnv wStopped).1.jobs :=
  ⟨(claim_c10 wCfg10 wEnv wStopped (.intVal 3600) rfl (fun h => nomatch h)
      (fun h => nomatch h) (fun h => nomatch h) rfl).1,
   (claim_c10 wCfg10 wEnv wStopped (.intVal 3600) rfl (fun h => nomatch h)
      (fun h => nomatch h) (fun h => nomatch h) rfl).2.2⟩

end Betamarz
